import Mathlib

/-!
Verification development for the face-attendance system.

The live recognition-and-attendance pipeline is embedded shallowly:

* `FaceRecognitionModule` mirrors `src/modules/face_recognition_module.py`:
  the tolerance / stride / frame-counter state and the three parallel
  gallery lists (`known_face_encodings`, `known_face_names`,
  `known_face_ids`).
* The external `face_recognition` library boundary (detection, encoding,
  Euclidean distance) is kept abstract: embeddings live in an arbitrary
  type `α` and the distance metric is a rational-valued parameter `d`.
  `numpy.argmin` is embedded as `argmin` (first index of the minimum).
* `AttendanceManager.mark_attendance` (`src/modules/attendance_manager.py`)
  and the storage layer it delegates to (`src/database/db_manager.py`)
  are embedded over an explicit `DBState`.
* `AttendanceTab._mark_attendance_for_student` (`src/gui/attendance_tab.py`)
  — the attendance gate with its 5-second cooldown scan and a bounded
  recency buffer of capacity 10 — is embedded over `TabState`.
-/

/-- Recognition result dictionary built by
`FaceRecognitionModule.recognize_faces`: bounding box scaled back to
original-frame coordinates, display name (sentinel `"Unknown"`),
optional student id, confidence, and the `is_known` flag computed as
`student_id is not None`. -/
structure RecognitionResult where
  location : Nat × Nat × Nat × Nat
  name : String
  student_id : Option String
  confidence : ℚ
  is_known : Bool
deriving Repr, DecidableEq

/-- State of `FaceRecognitionModule`: configured tolerance, detection
model name, frame-sampling stride, monotone frame counter, and the three
parallel gallery lists filled by `load_known_faces`.  Embeddings are
abstract (`α`); the library's distance metric is supplied separately. -/
structure FaceRecognitionModule (α : Type) where
  tolerance : ℚ
  model : String
  process_every_n_frames : Nat
  frame_count : Nat
  known_face_encodings : List α
  known_face_names : List String
  known_face_ids : List String
deriving Repr, DecidableEq

/-- A student record as consumed by `load_known_faces`: the code reads
`student['face_encoding']` (skipping records where the key is missing or
`None` — both embedded as `none`), `student['name']` and
`student['student_id']`. -/
structure StudentRecord (α : Type) where
  student_id : String
  name : String
  face_encoding : Option α
deriving Repr, DecidableEq

/-- The loop body of `load_known_faces`: walk the student list in order,
appending encoding, name and id of every record whose `face_encoding`
is present, skipping the rest. -/
def load_loop {α : Type} : List (StudentRecord α) → List α × List String × List String
  | [] => ([], [], [])
  | s :: rest =>
    let (es, ns, ids) := load_loop rest
    match s.face_encoding with
    | some e => (e :: es, s.name :: ns, s.student_id :: ids)
    | none => (es, ns, ids)

/-- `FaceRecognitionModule.load_known_faces`: resets the three gallery
lists and refills them from the given student records. -/
def load_known_faces {α : Type} (st : FaceRecognitionModule α)
    (students : List (StudentRecord α)) : FaceRecognitionModule α :=
  let (es, ns, ids) := load_loop students
  { st with
    known_face_encodings := es
    known_face_names := ns
    known_face_ids := ids }

/-- Modelled from the spec: `face_recognition.compare_faces` (external
library, §4.2 of the spec) returns, per gallery entry, whether its
distance to the probe is at or below the tolerance. -/
def compare_faces {α : Type} (d : α → α → ℚ) (known : List α) (probe : α)
    (tol : ℚ) : List Bool :=
  known.map (fun k => decide (d k probe ≤ tol))

/-- Modelled from the spec: `face_recognition.face_distance` (external
library, §4.2 of the spec) returns the list of distances from the probe
to every gallery entry. -/
def face_distances {α : Type} (d : α → α → ℚ) (known : List α) (probe : α) :
    List ℚ :=
  known.map (fun k => d k probe)

/-- `numpy.argmin`: first index of the minimum of a list (0 on the empty
list, where numpy would raise; the code only calls it with a non-empty
gallery). -/
def argmin : List ℚ → Nat
  | [] => 0
  | x :: xs =>
    let j := argmin xs
    if x ≤ xs.getD j x then 0 else j + 1

/-- The per-face body of the loop in
`FaceRecognitionModule.recognize_faces`: scale the location back up by 2,
compare the encoding against the gallery, and when some entry matches
take the `argmin` of the distances and report that entry (the
`if matches[best_match_index]` guard of the code included); `is_known`
is `student_id is not None`. -/
def recognize_one {α : Type} (st : FaceRecognitionModule α) (d : α → α → ℚ)
    (loc : Nat × Nat × Nat × Nat) (face_encoding : α) : RecognitionResult :=
  let (top, right, bottom, left) := loc
  let face_matches := compare_faces d st.known_face_encodings face_encoding st.tolerance
  let idc : String × Option String × ℚ :=
    if true ∈ face_matches then
      let dists := face_distances d st.known_face_encodings face_encoding
      let best_match_index := argmin dists
      if face_matches.getD best_match_index false then
        (st.known_face_names.getD best_match_index "Unknown",
         some (st.known_face_ids.getD best_match_index ""),
         1 - dists.getD best_match_index 0)
      else ("Unknown", none, 0)
    else ("Unknown", none, 0)
  { location := (top * 2, right * 2, bottom * 2, left * 2)
    name := idc.1
    student_id := idc.2.1
    confidence := idc.2.2
    is_known := idc.2.1.isSome }

/-- Modelled from the spec: the outcome of the detection-and-encoding
part of `recognize_faces` (colour conversion, 0.5× resize,
`face_locations`, `face_encodings` — all external library calls inside
the `try` block).  `failure` stands for any exception raised there,
`faces` for the zipped list of (location, encoding) pairs. -/
inductive FramePipeline (α : Type) where
  | failure : FramePipeline α
  | faces : List ((Nat × Nat × Nat × Nat) × α) → FramePipeline α

/-- `FaceRecognitionModule.recognize_faces`: increment the frame counter;
if the post-increment counter is not a multiple of the stride return `[]`
immediately; otherwise run detection+encoding (any exception is caught
and yields `[]`) and map the matching loop over the detected faces. -/
def recognize_faces {α : Type} (st : FaceRecognitionModule α) (d : α → α → ℚ)
    (frame : FramePipeline α) :
    FaceRecognitionModule α × List RecognitionResult :=
  let st1 := { st with frame_count := st.frame_count + 1 }
  if st1.frame_count % st1.process_every_n_frames ≠ 0 then (st1, [])
  else
    match frame with
    | FramePipeline.failure => (st1, [])
    | FramePipeline.faces fs => (st1, fs.map (fun p => recognize_one st1 d p.1 p.2))

/-- `FaceRecognitionModule.set_tolerance`: accept and store the value
when `0.3 <= tolerance <= 1.0`, returning `true`; otherwise leave the
state unchanged and return `false`. -/
def set_tolerance {α : Type} (st : FaceRecognitionModule α) (tolerance : ℚ) :
    FaceRecognitionModule α × Bool :=
  if 0.3 ≤ tolerance ∧ tolerance ≤ 1.0 then
    ({ st with tolerance := tolerance }, true)
  else (st, false)

/-- `FaceRecognitionModule.get_tolerance`. -/
def get_tolerance {α : Type} (st : FaceRecognitionModule α) : ℚ :=
  st.tolerance

/-- A row of the `students` table as far as the attendance path reads
it: `student_exists` counts rows by `student_id`, `get_student` reads
the `name`. -/
structure Student where
  student_id : String
  name : String
deriving Repr, DecidableEq

/-- A row of the `attendance` table: student id, calendar date (modelled
as a day index), time of day (modelled as a rational timestamp) and
status string. -/
structure AttendanceRec where
  student_id : String
  date : Nat
  time : ℚ
  status : String
deriving Repr, DecidableEq

/-- Storage state behind `DatabaseManager`: the two tables, plus an
environment fault flag modelling a storage failure (any non-integrity
exception during INSERT, which the code catches and turns into
`False`). -/
structure DBState where
  students : List Student
  attendance : List AttendanceRec
  insert_faulty : Bool
deriving Repr, DecidableEq

/-- `DatabaseManager.student_exists`: `COUNT(*) > 0` over students with
the given id. -/
def student_exists (db : DBState) (student_id : String) : Bool :=
  db.students.any (fun s => s.student_id == student_id)

/-- `DatabaseManager.is_attendance_marked`: `COUNT(*) > 0` over
attendance rows with the given id and date. -/
def is_attendance_marked (db : DBState) (student_id : String) (date : Nat) :
    Bool :=
  db.attendance.any (fun a => a.student_id == student_id && a.date == date)

/-- `DatabaseManager.get_student`: the row with the given id, if any. -/
def get_student (db : DBState) (student_id : String) : Option Student :=
  db.students.find? (fun s => s.student_id == student_id)

/-- `DatabaseManager.mark_attendance`: INSERT a new attendance row for
(id, date, time, status); returns `false` when the storage layer faults,
or on the `sqlite3.IntegrityError` raised by the uniqueness constraint.
Modelled from the spec: the `(student_id, date)` uniqueness constraint
lives in `schema.sql`, which is not under `src/`; per §3 of the spec
"at most one record per `(student_id, date)` — enforced as a uniqueness
constraint at the storage layer". -/
def db_mark_attendance (db : DBState) (student_id : String) (date : Nat)
    (time : ℚ) (status : String) : DBState × Bool :=
  if db.insert_faulty then (db, false)
  else if db.attendance.any (fun a => a.student_id == student_id && a.date == date) then
    (db, false)
  else
    ({ db with attendance := db.attendance ++ [⟨student_id, date, time, status⟩] },
     true)

/-- `AttendanceManager.mark_attendance`: check the student exists
(`"Student not found."` otherwise), check no record exists yet for
today (`"Attendance already marked for today."` otherwise), then INSERT
with the current date and time; on success look up the student's name
for the message, on failure report `"Failed to mark attendance."`.
Returns the new storage state with the `(success, message)` pair the
code returns. -/
def am_mark_attendance (db : DBState) (today : Nat) (now : ℚ)
    (student_id : String) (status : String) : DBState × Bool × String :=
  if ¬ student_exists db student_id then
    (db, false, "Student not found.")
  else if is_attendance_marked db student_id today then
    (db, false, "Attendance already marked for today.")
  else
    let r := db_mark_attendance db student_id today now status
    if r.2 then
      let nm := match get_student r.1 student_id with
        | some s => s.name
        | none => student_id
      (r.1, true, "Attendance marked for " ++ nm ++ ".")
    else (r.1, false, "Failed to mark attendance.")

/-- Outcome vocabulary of the attendance gate.  Modelled from the spec
(§4.4): the code signals these as an early return (cooldown) or as the
`(success, message)` pairs of `AttendanceManager.mark_attendance`. -/
inductive Outcome where
  | Marked
  | SuppressedCooldown
  | SuppressedAlreadyMarkedToday
  | StudentNotFound
  | WriteFailed
deriving Repr, DecidableEq

/-- Modelled from the spec: maps the failure messages of
`AttendanceManager.mark_attendance` onto the spec's outcome names. -/
def outcomeOfFailure (msg : String) : Outcome :=
  if msg == "Student not found." then Outcome.StudentNotFound
  else if msg == "Attendance already marked for today." then
    Outcome.SuppressedAlreadyMarkedToday
  else Outcome.WriteFailed

/-- In-memory state of `AttendanceTab` relevant to the gate: the
`recent_recognitions` deque (capacity 10) of `(student_id, timestamp)`
pairs and the configured `cooldown_seconds` (5 in the source). -/
structure TabState where
  recent_recognitions : List (String × ℚ)
  cooldown_seconds : ℚ
deriving Repr, DecidableEq

/-- The cooldown scan of `_mark_attendance_for_student`: some buffered
entry has the same student id and age below `cooldown_seconds`. -/
def cooldown_hit (tab : TabState) (student_id : String) (now : ℚ) : Bool :=
  tab.recent_recognitions.any
    (fun p => p.1 == student_id && decide (now - p.2 < tab.cooldown_seconds))

/-- `collections.deque(maxlen=10).append`: append on the right, evicting
the oldest (leftmost) entry when the buffer is full. -/
def deque_push (buf : List (String × ℚ)) (x : String × ℚ) :
    List (String × ℚ) :=
  if buf.length < 10 then buf ++ [x] else buf.drop 1 ++ [x]

/-- `AttendanceTab._mark_attendance_for_student` (the attendance gate's
`offer`): return early on a cooldown hit without touching storage;
otherwise call `AttendanceManager.mark_attendance` and, on success only,
push `(student_id, now)` onto the recency buffer.  The outcome value
names the path taken, per the spec's §4.4 vocabulary. -/
def offer (tab : TabState) (db : DBState) (today : Nat) (now : ℚ)
    (student_id : String) : TabState × DBState × Outcome :=
  if cooldown_hit tab student_id now then
    (tab, db, Outcome.SuppressedCooldown)
  else
    let r := am_mark_attendance db today now student_id "Present"
    if r.2.1 then
      ({ tab with
         recent_recognitions := deque_push tab.recent_recognitions (student_id, now) },
       r.1, Outcome.Marked)
    else (tab, r.1, outcomeOfFailure r.2.2)

/-- Absolute-difference metric on rational stand-in embeddings, used to
instantiate the abstract library distance in concrete checks. -/
def absDist (a b : ℚ) : ℚ := |a - b|

/-- Concrete recognition module for checks: default tolerance 0.6, hog
model, stride 2, a two-entry gallery whose entries sit at distance 0.4
(`"S1"`/Alice) and 0.55 (`"S2"`/Bob) from the probe 0 under `absDist`. -/
def demoModule : FaceRecognitionModule ℚ :=
  { tolerance := 0.6
    model := "hog"
    process_every_n_frames := 2
    frame_count := 0
    known_face_encodings := [0.4, 0.55]
    known_face_names := ["Alice", "Bob"]
    known_face_ids := ["S1", "S2"] }

/-- Concrete recognition module with an empty gallery. -/
def emptyModule : FaceRecognitionModule ℚ :=
  { demoModule with
    known_face_encodings := []
    known_face_names := []
    known_face_ids := [] }

/-- Concrete storage state for checks: one student, no attendance yet,
healthy storage. -/
def demoDB : DBState :=
  { students := [{ student_id := "S1", name := "Alice" }]
    attendance := []
    insert_faulty := false }

/-- Concrete gate state for checks: empty recency buffer, the source's
5-second cooldown. -/
def emptyTab : TabState :=
  { recent_recognitions := []
    cooldown_seconds := 5 }

/-- Concrete storage state for checks: no students at all. -/
def emptyDB : DBState :=
  { students := []
    attendance := []
    insert_faulty := false }

/-- Concrete storage state for checks: `"S1"` registered and already
marked present today (day 0). -/
def markedDB : DBState :=
  { students := [{ student_id := "S1", name := "Alice" }]
    attendance := [{ student_id := "S1", date := 0, time := 0, status := "Present" }]
    insert_faulty := false }

/-- Concrete detection outcome for checks: a single face at location
(1,2,3,4) whose probe embedding is 0. -/
def demoFrame : FramePipeline ℚ :=
  FramePipeline.faces [((1, 2, 3, 4), 0)]

/-- Concrete student records for checks: two with encodings, one
without. -/
def demoStudents : List (StudentRecord ℚ) :=
  [{ student_id := "S1", name := "Alice", face_encoding := some 0.4 },
   { student_id := "S3", name := "Carol", face_encoding := none },
   { student_id := "S2", name := "Bob", face_encoding := some 0.55 }]

theorem argmin_lt_length (l : List ℚ) (h : l ≠ []) : argmin l < l.length := by
  induction l with
  | nil => exact absurd rfl h
  | cons x xs ih =>
    simp only [argmin]
    split
    · simp
    · rcases List.eq_nil_or_concat xs with h0 | _
      · subst h0
        simp [argmin] at *
      · have hxs : xs ≠ [] := by
          intro h0
          subst h0
          simp [argmin] at *
        have := ih hxs
        simpa [List.length_cons, Nat.succ_lt_succ_iff] using this

theorem argmin_le (l : List ℚ) (x : ℚ) (hx : x ∈ l) :
    l.getD (argmin l) 0 ≤ x := by
  induction l with
  | nil => simp at hx
  | cons a xs ih =>
    rcases List.eq_nil_or_concat xs with h0 | _
    · subst h0
      simp at hx
      simp [argmin, hx]
    · have hxs : xs ≠ [] := by
        intro h0
        subst h0
        simp at *
      have hlt := argmin_lt_length xs hxs
      have hgd : xs.getD (argmin xs) a = xs.getD (argmin xs) 0 := by
        rw [List.getD_eq_getElem xs a hlt, List.getD_eq_getElem xs 0 hlt]
      simp only [argmin]
      split
      · rename_i hle
        rw [hgd] at hle
        simp only [List.getD_cons_zero]
        rcases List.mem_cons.mp hx with h1 | h1
        · exact le_of_eq h1.symm
        · exact le_trans hle (ih h1)
      · rename_i hgt
        push_neg at hgt
        rw [hgd] at hgt
        simp only [List.getD_cons_succ]
        rcases List.mem_cons.mp hx with h1 | h1
        · exact h1 ▸ le_of_lt hgt
        · exact ih h1

theorem argmin_getD_mem (l : List ℚ) (h : l ≠ []) :
    l.getD (argmin l) 0 ∈ l := by
  have hlt := argmin_lt_length l h
  rw [List.getD_eq_getElem l 0 hlt]
  exact l.getElem_mem hlt

theorem absDist_eval (a b : ℚ) (h : b ≤ a) : absDist a b = a - b :=
  abs_of_nonneg (by linarith)

theorem compare_faces_eq_map {α : Type} (d : α → α → ℚ) (known : List α)
    (probe : α) (tol : ℚ) :
    compare_faces d known probe tol =
      (face_distances d known probe).map (fun q => decide (q ≤ tol)) := by
  simp [compare_faces, face_distances, List.map_map, Function.comp]

theorem true_mem_compare_iff {α : Type} (d : α → α → ℚ) (known : List α)
    (probe : α) (tol : ℚ) :
    (true ∈ compare_faces d known probe tol) ↔
      ∃ q ∈ face_distances d known probe, q ≤ tol := by
  rw [compare_faces_eq_map]
  simp [List.mem_map]

theorem exists_le_iff_argmin_le (l : List ℚ) (h : l ≠ []) (tol : ℚ) :
    (∃ q ∈ l, q ≤ tol) ↔ l.getD (argmin l) 0 ≤ tol := by
  constructor
  · rintro ⟨q, hq, hqt⟩
    exact le_trans (argmin_le l q hq) hqt
  · intro hm
    exact ⟨l.getD (argmin l) 0, argmin_getD_mem l h, hm⟩

theorem face_distances_length {α : Type} (d : α → α → ℚ) (known : List α)
    (probe : α) : (face_distances d known probe).length = known.length := by
  simp [face_distances]

theorem face_distances_ne_nil {α : Type} (d : α → α → ℚ) (known : List α)
    (probe : α) (h : known ≠ []) : face_distances d known probe ≠ [] := by
  simp [face_distances, h]

theorem recognize_one_known {α : Type} (st : FaceRecognitionModule α)
    (d : α → α → ℚ) (loc : Nat × Nat × Nat × Nat) (e : α)
    (hne : st.known_face_encodings ≠ [])
    (hle : (face_distances d st.known_face_encodings e).getD
      (argmin (face_distances d st.known_face_encodings e)) 0 ≤ st.tolerance) :
    recognize_one st d loc e =
      { location := (loc.1 * 2, loc.2.1 * 2, loc.2.2.1 * 2, loc.2.2.2 * 2)
        name := st.known_face_names.getD
          (argmin (face_distances d st.known_face_encodings e)) "Unknown"
        student_id := some (st.known_face_ids.getD
          (argmin (face_distances d st.known_face_encodings e)) "")
        confidence := 1 - (face_distances d st.known_face_encodings e).getD
          (argmin (face_distances d st.known_face_encodings e)) 0
        is_known := true } := by
  obtain ⟨top, right, bottom, left⟩ := loc
  set dists := face_distances d st.known_face_encodings e with hdists
  have hdne : dists ≠ [] := face_distances_ne_nil d _ e hne
  have hmem : true ∈ compare_faces d st.known_face_encodings e st.tolerance := by
    rw [true_mem_compare_iff]
    exact (exists_le_iff_argmin_le dists hdne st.tolerance).mpr hle
  have hblt : argmin dists < dists.length := argmin_lt_length dists hdne
  have hgetD : (compare_faces d st.known_face_encodings e st.tolerance).getD
      (argmin dists) false = true := by
    rw [compare_faces_eq_map]
    have hblt2 : argmin dists < (dists.map (fun q => decide (q ≤ st.tolerance))).length := by
      simpa using hblt
    rw [List.getD_eq_getElem _ false hblt2, List.getElem_map]
    rw [List.getD_eq_getElem dists 0 hblt] at hle
    simpa using hle
  simp only [recognize_one, hmem, if_true, ← hdists, hgetD]
  simp

theorem recognize_one_unknown {α : Type} (st : FaceRecognitionModule α)
    (d : α → α → ℚ) (loc : Nat × Nat × Nat × Nat) (e : α)
    (h : st.known_face_encodings = [] ∨
      st.tolerance < (face_distances d st.known_face_encodings e).getD
        (argmin (face_distances d st.known_face_encodings e)) 0) :
    recognize_one st d loc e =
      { location := (loc.1 * 2, loc.2.1 * 2, loc.2.2.1 * 2, loc.2.2.2 * 2)
        name := "Unknown"
        student_id := none
        confidence := 0
        is_known := false } := by
  obtain ⟨top, right, bottom, left⟩ := loc
  have hnm : ¬ (true ∈ compare_faces d st.known_face_encodings e st.tolerance) := by
    rw [true_mem_compare_iff]
    rintro ⟨q, hq, hqt⟩
    rcases h with h | h
    · rw [h] at hq
      simp [face_distances] at hq
    · have hne : st.known_face_encodings ≠ [] := by
        intro h0
        rw [h0] at hq
        simp [face_distances] at hq
      have hdne : face_distances d st.known_face_encodings e ≠ [] :=
        face_distances_ne_nil d _ e hne
      have := (exists_le_iff_argmin_le _ hdne st.tolerance).mp ⟨q, hq, hqt⟩
      exact absurd this (not_le_of_lt h)
  simp only [recognize_one, hnm, if_false]
  simp

theorem recognize_one_invariant {α : Type} (st : FaceRecognitionModule α)
    (d : α → α → ℚ) (loc : Nat × Nat × Nat × Nat) (e : α) :
    ((recognize_one st d loc e).is_known = true ↔
      (recognize_one st d loc e).student_id.isSome = true) ∧
    ((recognize_one st d loc e).student_id = none →
      (recognize_one st d loc e).name = "Unknown" ∧
      (recognize_one st d loc e).confidence = 0) := by
  by_cases hne : st.known_face_encodings = []
  · rw [recognize_one_unknown st d loc e (Or.inl hne)]
    simp
  · by_cases hle : (face_distances d st.known_face_encodings e).getD
        (argmin (face_distances d st.known_face_encodings e)) 0 ≤ st.tolerance
    · rw [recognize_one_known st d loc e hne hle]
      simp
    · rw [recognize_one_unknown st d loc e (Or.inr (lt_of_not_le hle))]
      simp

/-- C1: for every probe embedding and every non-empty gallery, the
recognition loop selects the gallery entry with the globally smallest
distance to the probe (index `argmin` of the distance list), reports it
as the match exactly when that minimum distance is at or below the
configured tolerance, and never reports any other entry: a match's
distance is always the global minimum and never exceeds the tolerance. -/
theorem C1_best_match_global_min_gated {α : Type}
    (st : FaceRecognitionModule α) (d : α → α → ℚ)
    (loc : Nat × Nat × Nat × Nat) (e : α)
    (hne : st.known_face_encodings ≠ []) :
    (∀ q ∈ face_distances d st.known_face_encodings e,
      (face_distances d st.known_face_encodings e).getD
        (argmin (face_distances d st.known_face_encodings e)) 0 ≤ q) ∧
    ((recognize_one st d loc e).is_known = true ↔
      (face_distances d st.known_face_encodings e).getD
        (argmin (face_distances d st.known_face_encodings e)) 0 ≤ st.tolerance) ∧
    ((recognize_one st d loc e).is_known = true →
      (recognize_one st d loc e).student_id =
        some (st.known_face_ids.getD
          (argmin (face_distances d st.known_face_encodings e)) "") ∧
      (recognize_one st d loc e).name =
        st.known_face_names.getD
          (argmin (face_distances d st.known_face_encodings e)) "Unknown") := by
  refine ⟨fun q hq => argmin_le _ q hq, ?_, ?_⟩
  · by_cases hle : (face_distances d st.known_face_encodings e).getD
        (argmin (face_distances d st.known_face_encodings e)) 0 ≤ st.tolerance
    · rw [recognize_one_known st d loc e hne hle]
      simpa using hle
    · rw [recognize_one_unknown st d loc e (Or.inr (lt_of_not_le hle))]
      simpa using hle
  · intro hk
    by_cases hle : (face_distances d st.known_face_encodings e).getD
        (argmin (face_distances d st.known_face_encodings e)) 0 ≤ st.tolerance
    · rw [recognize_one_known st d loc e hne hle]
      exact ⟨rfl, rfl⟩
    · rw [recognize_one_unknown st d loc e (Or.inr (lt_of_not_le hle))] at hk
      simp at hk

/-- C4: the pipeline's frame counter increases by exactly one on every
`recognize_faces` call; a frame whose post-increment counter `k` has
`k % stride ≠ 0` is skipped — empty result list, no other state change —
and a frame with `k % stride = 0` is processed: the results are the
matching loop mapped over the detected faces. -/
theorem C4_frame_counter_stride {α : Type} (st : FaceRecognitionModule α)
    (d : α → α → ℚ) (frame : FramePipeline α) :
    (recognize_faces st d frame).1.frame_count = st.frame_count + 1 ∧
    ((st.frame_count + 1) % st.process_every_n_frames ≠ 0 →
      recognize_faces st d frame =
        ({ st with frame_count := st.frame_count + 1 }, [])) ∧
    ((st.frame_count + 1) % st.process_every_n_frames = 0 →
      ∀ fs, frame = FramePipeline.faces fs →
        (recognize_faces st d frame).2 =
          fs.map (fun p =>
            recognize_one { st with frame_count := st.frame_count + 1 } d p.1 p.2)) := by
  refine ⟨?_, ?_, ?_⟩
  · simp only [recognize_faces]
    split
    · rfl
    · cases frame <;> rfl
  · intro hskip
    simp [recognize_faces, hskip]
  · intro hproc fs hfs
    subst hfs
    simp [recognize_faces, hproc]

/-- C5: a matched recognition result's confidence equals one minus the
match's distance and lies in `[0, 1]` (given a nonnegative metric and a
tolerance at most 1, the configured valid range); an unmatched result's
confidence is exactly 0. -/
theorem C5_confidence_one_minus_distance {α : Type}
    (st : FaceRecognitionModule α) (d : α → α → ℚ)
    (loc : Nat × Nat × Nat × Nat) (e : α)
    (hnn : ∀ k ∈ st.known_face_encodings, 0 ≤ d k e)
    (htol : st.tolerance ≤ 1) :
    ((recognize_one st d loc e).is_known = true →
      (recognize_one st d loc e).confidence =
        1 - (face_distances d st.known_face_encodings e).getD
          (argmin (face_distances d st.known_face_encodings e)) 0 ∧
      0 ≤ (recognize_one st d loc e).confidence ∧
      (recognize_one st d loc e).confidence ≤ 1) ∧
    ((recognize_one st d loc e).is_known = false →
      (recognize_one st d loc e).confidence = 0) := by
  by_cases hne : st.known_face_encodings = []
  · rw [recognize_one_unknown st d loc e (Or.inl hne)]
    simp
  · by_cases hle : (face_distances d st.known_face_encodings e).getD
        (argmin (face_distances d st.known_face_encodings e)) 0 ≤ st.tolerance
    · rw [recognize_one_known st d loc e hne hle]
      have hmem : (face_distances d st.known_face_encodings e).getD
          (argmin (face_distances d st.known_face_encodings e)) 0 ∈
            face_distances d st.known_face_encodings e :=
        argmin_getD_mem _ (face_distances_ne_nil d _ e hne)
      have h0 : 0 ≤ (face_distances d st.known_face_encodings e).getD
          (argmin (face_distances d st.known_face_encodings e)) 0 := by
        rcases List.mem_map.mp hmem with ⟨k, hk, hkq⟩
        exact hkq ▸ hnn k hk
      refine ⟨fun _ => ⟨rfl, ?_, ?_⟩, by simp⟩
      · have := le_trans hle htol
        dsimp only
        linarith
      · dsimp only
        linarith
    · rw [recognize_one_unknown st d loc e (Or.inr (lt_of_not_le hle))]
      simp

/-- C6: `set_tolerance` rejects every value outside `[0.3, 1.0]` —
returning `false` with the stored tolerance unchanged, so
`get_tolerance` still reports the pre-call value — and accepts every
value inside the range, storing it and returning `true`. -/
theorem C6_set_tolerance_range {α : Type} (st : FaceRecognitionModule α)
    (t : ℚ) :
    (¬ (0.3 ≤ t ∧ t ≤ 1.0) →
      set_tolerance st t = (st, false) ∧
      get_tolerance (set_tolerance st t).1 = get_tolerance st) ∧
    ((0.3 ≤ t ∧ t ≤ 1.0) →
      set_tolerance st t = ({ st with tolerance := t }, true) ∧
      get_tolerance (set_tolerance st t).1 = t) := by
  constructor
  · intro h
    simp [set_tolerance, h, get_tolerance]
  · intro h
    simp [set_tolerance, h, get_tolerance]

/-- C7: with an empty gallery, every recognition result of every frame
is unknown: name is the `"Unknown"` sentinel, the student id is absent
and the confidence is 0 — for every probe and every tolerance. -/
theorem C7_empty_gallery_unknown {α : Type} (st : FaceRecognitionModule α)
    (d : α → α → ℚ) (frame : FramePipeline α)
    (h : st.known_face_encodings = []) :
    ∀ r ∈ (recognize_faces st d frame).2,
      r.name = "Unknown" ∧ r.student_id = none ∧ r.confidence = 0 := by
  intro r hr
  simp only [recognize_faces] at hr
  split at hr
  · simp at hr
  · cases frame with
    | failure => simp at hr
    | faces fs =>
      simp only [List.mem_map] at hr
      obtain ⟨p, _, hp⟩ := hr
      rw [← hp, recognize_one_unknown { st with frame_count := st.frame_count + 1 }
        d p.1 p.2 (Or.inl h)]
      exact ⟨rfl, rfl, rfl⟩

/-- C8: `load_known_faces` replaces the whole cache: afterwards the
three parallel lists hold exactly the encodings, names and ids of the
input records that carry an encoding, in input order, records lacking
one being skipped; loading the same input twice is idempotent, so any
probe matches identically (same outcome, same confidence) against
either gallery. -/
theorem C8_load_replaces_and_idempotent {α : Type}
    (st : FaceRecognitionModule α) (students : List (StudentRecord α))
    (d : α → α → ℚ) :
    (load_known_faces st students).known_face_encodings =
      students.filterMap (fun s => s.face_encoding) ∧
    (load_known_faces st students).known_face_names =
      (students.filter (fun s => s.face_encoding.isSome)).map (fun s => s.name) ∧
    (load_known_faces st students).known_face_ids =
      (students.filter (fun s => s.face_encoding.isSome)).map (fun s => s.student_id) ∧
    load_known_faces (load_known_faces st students) students =
      load_known_faces st students ∧
    (∀ loc e, recognize_one (load_known_faces (load_known_faces st students) students) d loc e =
      recognize_one (load_known_faces st students) d loc e) := by
  have hloop : ∀ l : List (StudentRecord α),
      load_loop l = (l.filterMap (fun s => s.face_encoding),
        (l.filter (fun s => s.face_encoding.isSome)).map (fun s => s.name),
        (l.filter (fun s => s.face_encoding.isSome)).map (fun s => s.student_id)) := by
    intro l
    induction l with
    | nil => rfl
    | cons s rest ih =>
      cases hs : s.face_encoding <;>
        simp [load_loop, ih, List.filterMap_cons, List.filter_cons, hs]
  have hidem : load_known_faces (load_known_faces st students) students =
      load_known_faces st students := rfl
  exact ⟨by simp [load_known_faces, hloop], by simp [load_known_faces, hloop],
    by simp [load_known_faces, hloop], hidem, fun loc e => by rw [hidem]⟩

/-- C9: a detector or encoder failure inside `recognize_faces` (the
exception caught by its `try` block, embedded as
`FramePipeline.failure`) yields an empty result list for that frame;
the call is a total function, so the failure cannot propagate out of
the pipeline. -/
theorem C9_detector_failure_empty {α : Type} (st : FaceRecognitionModule α)
    (d : α → α → ℚ) :
    (recognize_faces st d FramePipeline.failure).2 = [] := by
  simp only [recognize_faces]
  split <;> rfl

/-- C10: every result of `recognize_faces` satisfies the field-coherence
invariant: `is_known` holds exactly when the student id is present, and
when the student id is absent the name is the `"Unknown"` sentinel and
the confidence is exactly 0. -/
theorem C10_result_field_coherence {α : Type} (st : FaceRecognitionModule α)
    (d : α → α → ℚ) (frame : FramePipeline α) :
    ∀ r ∈ (recognize_faces st d frame).2,
      ((r.is_known = true ↔ r.student_id.isSome = true) ∧
       (r.student_id = none → r.name = "Unknown" ∧ r.confidence = 0)) := by
  intro r hr
  simp only [recognize_faces] at hr
  split at hr
  · simp at hr
  · cases frame with
    | failure => simp at hr
    | faces fs =>
      simp only [List.mem_map] at hr
      obtain ⟨p, _, hp⟩ := hr
      rw [← hp]
      exact recognize_one_invariant _ d p.1 p.2

theorem outcomeOfFailure_ne_marked (msg : String) :
    outcomeOfFailure msg ≠ Outcome.Marked := by
  simp only [outcomeOfFailure]
  split
  · simp
  · split <;> simp

theorem mem_deque_push (buf : List (String × ℚ)) (x : String × ℚ) :
    x ∈ deque_push buf x := by
  simp only [deque_push]
  split <;> simp

theorem deque_push_length_le (buf : List (String × ℚ)) (x : String × ℚ)
    (h : buf.length ≤ 10) : (deque_push buf x).length ≤ 10 := by
  simp only [deque_push]
  split <;>
    · rename_i hc
      simp only [List.length_append, List.length_drop, List.length_cons,
        List.length_nil]
      omega

/-- C2: with the cooldown scan passing (in particular with an empty
recency buffer, e.g. after a process restart), an offer with an unknown
student id returns `StudentNotFound` with storage untouched; with a
record already present for `(student_id, today)` it returns
`SuppressedAlreadyMarkedToday` with storage untouched; otherwise a
healthy insert appends a `Present` record carrying the current date and
time and the outcome is `Marked`, while a faulty insert returns
`WriteFailed` with storage untouched. -/
theorem C2_offer_storage_path (tab : TabState) (db : DBState) (today : Nat)
    (now : ℚ) (sid : String) (hcd : cooldown_hit tab sid now = false) :
    (student_exists db sid = false →
      offer tab db today now sid = (tab, db, Outcome.StudentNotFound)) ∧
    (student_exists db sid = true →
      is_attendance_marked db sid today = true →
      offer tab db today now sid =
        (tab, db, Outcome.SuppressedAlreadyMarkedToday)) ∧
    (student_exists db sid = true →
      is_attendance_marked db sid today = false →
      db.insert_faulty = false →
      (offer tab db today now sid).2.2 = Outcome.Marked ∧
      (offer tab db today now sid).2.1.attendance =
        db.attendance ++ [⟨sid, today, now, "Present"⟩]) ∧
    (student_exists db sid = true →
      is_attendance_marked db sid today = false →
      db.insert_faulty = true →
      offer tab db today now sid = (tab, db, Outcome.WriteFailed)) := by
  refine ⟨?_, ?_, ?_, ?_⟩
  · intro hex
    simp [offer, hcd, am_mark_attendance, hex, outcomeOfFailure]
  · intro hex hmk
    simp [offer, hcd, am_mark_attendance, hex, hmk, outcomeOfFailure]
  · intro hex hmk hok
    have hany : db.attendance.any
        (fun a => a.student_id == sid && a.date == today) = false := hmk
    simp [offer, hcd, am_mark_attendance, hex, hmk, db_mark_attendance, hok, hany]
  · intro hex hmk hbad
    simp [offer, hcd, am_mark_attendance, hex, hmk, db_mark_attendance, hbad,
      outcomeOfFailure]

/-- C3: after a successful mark at time `t1`, a second offer for the
same student at `t2` with `t2 - t1` below the 5-second cooldown window
is suppressed by the cooldown scan, leaving both the gate state and
storage untouched; the `(student_id, timestamp)` pair is pushed onto
the recency buffer exactly on a `Marked` outcome, and the buffer stays
bounded at capacity 10, evicting the oldest entry when full. -/
theorem C3_cooldown_suppression (tab : TabState) (db : DBState) (today : Nat)
    (t1 t2 : ℚ) (sid : String) (hcool : tab.cooldown_seconds = 5) :
    ((offer tab db today t1 sid).2.2 = Outcome.Marked → t2 - t1 < 5 →
      offer (offer tab db today t1 sid).1 (offer tab db today t1 sid).2.1
          today t2 sid =
        ((offer tab db today t1 sid).1, (offer tab db today t1 sid).2.1,
         Outcome.SuppressedCooldown)) ∧
    ((offer tab db today t1 sid).2.2 = Outcome.Marked →
      (offer tab db today t1 sid).1.recent_recognitions =
        deque_push tab.recent_recognitions (sid, t1)) ∧
    ((offer tab db today t1 sid).2.2 ≠ Outcome.Marked →
      (offer tab db today t1 sid).1 = tab) ∧
    (tab.recent_recognitions.length ≤ 10 →
      (offer tab db today t1 sid).1.recent_recognitions.length ≤ 10) ∧
    (tab.recent_recognitions.length = 10 →
      (offer tab db today t1 sid).2.2 = Outcome.Marked →
      (offer tab db today t1 sid).1.recent_recognitions =
        tab.recent_recognitions.drop 1 ++ [(sid, t1)]) := by
  by_cases h1 : cooldown_hit tab sid t1
  · have hout : (offer tab db today t1 sid).2.2 = Outcome.SuppressedCooldown := by
      simp [offer, h1]
    have htab : (offer tab db today t1 sid).1 = tab := by
      simp [offer, h1]
    refine ⟨?_, ?_, fun _ => htab, fun h => by rw [htab]; exact h, ?_⟩
    · intro hmk
      rw [hout] at hmk
      simp at hmk
    · intro hmk
      rw [hout] at hmk
      simp at hmk
    · intro _ hmk
      rw [hout] at hmk
      simp at hmk
  · by_cases h2 : (am_mark_attendance db today t1 sid "Present").2.1
    · have htab : (offer tab db today t1 sid).1 =
          { tab with recent_recognitions :=
              deque_push tab.recent_recognitions (sid, t1) } := by
        simp [offer, h1, h2]
      have hout : (offer tab db today t1 sid).2.2 = Outcome.Marked := by
        simp [offer, h1, h2]
      refine ⟨?_, fun _ => by rw [htab], fun hne => absurd hout hne, ?_, ?_⟩
      · intro _ hlt
        have hhit : cooldown_hit (offer tab db today t1 sid).1 sid t2 = true := by
          rw [htab]
          simp only [cooldown_hit, List.any_eq_true]
          refine ⟨(sid, t1), mem_deque_push _ _, ?_⟩
          simp [hcool, hlt]
        generalize hT : (offer tab db today t1 sid).1 = T at hhit ⊢
        generalize hD : (offer tab db today t1 sid).2.1 = D
        simp [offer, hhit]
      · intro hlen
        rw [htab]
        exact deque_push_length_le _ _ hlen
      · intro hfull _
        rw [htab]
        simp only [deque_push, hfull]
        norm_num
    · have htab : (offer tab db today t1 sid).1 = tab := by
        simp [offer, h1, h2]
      have hout : (offer tab db today t1 sid).2.2 =
          outcomeOfFailure (am_mark_attendance db today t1 sid "Present").2.2 := by
        simp [offer, h1, h2]
      refine ⟨?_, ?_, fun _ => htab, fun h => by rw [htab]; exact h, ?_⟩
      · intro hmk
        rw [hout] at hmk
        exact absurd hmk (outcomeOfFailure_ne_marked _)
      · intro hmk
        rw [hout] at hmk
        exact absurd hmk (outcomeOfFailure_ne_marked _)
      · intro _ hmk
        rw [hout] at hmk
        exact absurd hmk (outcomeOfFailure_ne_marked _)

/-- Concrete instantiation of C1: probe 0 against the non-empty demo
gallery (entries at distance 0.4 and 0.55, tolerance 0.6) is matched to
the closest entry `"S1"`/Alice. -/
theorem C1_best_match_global_min_gated_witness :
    (recognize_one demoModule absDist (1, 2, 3, 4) 0).is_known = true ∧
    (recognize_one demoModule absDist (1, 2, 3, 4) 0).student_id = some "S1" ∧
    (recognize_one demoModule absDist (1, 2, 3, 4) 0).name = "Alice" := by
  have h := C1_best_match_global_min_gated demoModule absDist (1, 2, 3, 4) 0 (by decide)
  have harg : argmin (face_distances absDist demoModule.known_face_encodings 0) = 0 := by
    norm_num [face_distances, demoModule, absDist_eval, argmin]
  have hmin : (face_distances absDist demoModule.known_face_encodings 0).getD
      (argmin (face_distances absDist demoModule.known_face_encodings 0)) 0 ≤
        demoModule.tolerance := by
    rw [harg]
    norm_num [face_distances, demoModule, absDist_eval]
  have hk := h.2.1.mpr hmin
  obtain ⟨hid, hname⟩ := h.2.2 hk
  rw [harg] at hid hname
  refine ⟨hk, ?_, ?_⟩
  · rw [hid]
    norm_num [demoModule]
  · rw [hname]
    norm_num [demoModule]

/-- Concrete instantiation of C2: with an empty recency buffer, offering
`"S1"` against empty storage yields `StudentNotFound` and no write, and
offering `"S1"` against storage that already holds today's record (the
process-restart scenario) yields `SuppressedAlreadyMarkedToday` and no
write. -/
theorem C2_offer_storage_path_witness :
    cooldown_hit emptyTab "S1" 0 = false ∧
    offer emptyTab emptyDB 0 0 "S1" = (emptyTab, emptyDB, Outcome.StudentNotFound) ∧
    offer emptyTab markedDB 0 0 "S1" =
      (emptyTab, markedDB, Outcome.SuppressedAlreadyMarkedToday) :=
  ⟨rfl,
   (C2_offer_storage_path emptyTab emptyDB 0 0 "S1" rfl).1 rfl,
   (C2_offer_storage_path emptyTab markedDB 0 0 "S1" rfl).2.1 rfl rfl⟩

/-- Concrete instantiation of C3: a first offer of `"S1"` at `t1 = 0`
is `Marked`; a second offer at `t2 = 3` (within the 5-second window) is
suppressed by the cooldown with gate state and storage untouched. -/
theorem C3_cooldown_suppression_witness :
    (offer emptyTab demoDB 0 0 "S1").2.2 = Outcome.Marked ∧
    offer (offer emptyTab demoDB 0 0 "S1").1 (offer emptyTab demoDB 0 0 "S1").2.1
        0 3 "S1" =
      ((offer emptyTab demoDB 0 0 "S1").1, (offer emptyTab demoDB 0 0 "S1").2.1,
       Outcome.SuppressedCooldown) :=
  ⟨rfl,
   (C3_cooldown_suppression emptyTab demoDB 0 0 3 "S1" rfl).1 rfl (by norm_num)⟩

/-- Concrete instantiation of C4: stride 2, frames fed at counter values
1..4 — frames 1 and 3 yield empty results with only the counter bumped,
frames 2 and 4 are processed. -/
theorem C4_frame_counter_stride_witness :
    (recognize_faces demoModule absDist demoFrame).1.frame_count =
      demoModule.frame_count + 1 ∧
    recognize_faces demoModule absDist demoFrame =
      ({ demoModule with frame_count := 1 }, []) ∧
    (recognize_faces { demoModule with frame_count := 1 } absDist demoFrame).2 =
      [recognize_one { demoModule with frame_count := 2 } absDist (1, 2, 3, 4) 0] ∧
    recognize_faces { demoModule with frame_count := 2 } absDist demoFrame =
      ({ demoModule with frame_count := 3 }, []) ∧
    (recognize_faces { demoModule with frame_count := 3 } absDist demoFrame).2 =
      [recognize_one { demoModule with frame_count := 4 } absDist (1, 2, 3, 4) 0] :=
  ⟨(C4_frame_counter_stride demoModule absDist demoFrame).1,
   (C4_frame_counter_stride demoModule absDist demoFrame).2.1 (by decide),
   (C4_frame_counter_stride { demoModule with frame_count := 1 } absDist
     demoFrame).2.2 (by decide) _ rfl,
   (C4_frame_counter_stride { demoModule with frame_count := 2 } absDist
     demoFrame).2.1 (by decide),
   (C4_frame_counter_stride { demoModule with frame_count := 3 } absDist
     demoFrame).2.2 (by decide) _ rfl⟩

/-- Concrete instantiation of C5: tolerance 0.6, gallery entries at
distance 0.4 and 0.55 from the probe — the 0.4 entry `"S1"` is returned
with confidence exactly 0.6, which lies in `[0, 1]`. -/
theorem C5_confidence_one_minus_distance_witness :
    (recognize_one demoModule absDist (1, 2, 3, 4) 0).confidence = 0.6 ∧
    0 ≤ (recognize_one demoModule absDist (1, 2, 3, 4) 0).confidence ∧
    (recognize_one demoModule absDist (1, 2, 3, 4) 0).confidence ≤ 1 ∧
    (recognize_one demoModule absDist (1, 2, 3, 4) 0).student_id = some "S1" := by
  have h := C5_confidence_one_minus_distance demoModule absDist (1, 2, 3, 4) 0
    (fun k _ => abs_nonneg (k - 0)) (by norm_num [demoModule])
  have harg : argmin (face_distances absDist demoModule.known_face_encodings 0) = 0 := by
    norm_num [face_distances, demoModule, absDist_eval, argmin]
  have hmin : (face_distances absDist demoModule.known_face_encodings 0).getD
      (argmin (face_distances absDist demoModule.known_face_encodings 0)) 0 ≤
        demoModule.tolerance := by
    rw [harg]
    norm_num [face_distances, demoModule, absDist_eval]
  have hr := recognize_one_known demoModule absDist (1, 2, 3, 4) 0 (by decide) hmin
  have hk : (recognize_one demoModule absDist (1, 2, 3, 4) 0).is_known = true := by
    rw [hr]
  obtain ⟨hconf, h0, h1⟩ := h.1 hk
  refine ⟨?_, h0, h1, ?_⟩
  · rw [hconf, harg]
    norm_num [face_distances, demoModule, absDist_eval]
  · rw [hr, harg]
    norm_num [demoModule]

/-- Concrete instantiation of C6: `set_tolerance(1.5)` is rejected and a
subsequent `get_tolerance` still reports the pre-call value 0.6. -/
theorem C6_set_tolerance_range_witness :
    set_tolerance demoModule 1.5 = (demoModule, false) ∧
    get_tolerance (set_tolerance demoModule 1.5).1 = get_tolerance demoModule ∧
    get_tolerance demoModule = 0.6 :=
  ⟨((C6_set_tolerance_range demoModule 1.5).1 (by norm_num)).1,
   ((C6_set_tolerance_range demoModule 1.5).1 (by norm_num)).2,
   rfl⟩

/-- Concrete instantiation of C7: with an empty gallery, the processed
demo frame's detected face comes back unknown with confidence 0. -/
theorem C7_empty_gallery_unknown_witness :
    (recognize_one { emptyModule with frame_count := 2 } absDist (1, 2, 3, 4) 0).name
      = "Unknown" ∧
    (recognize_one { emptyModule with frame_count := 2 } absDist (1, 2, 3, 4) 0).student_id
      = none ∧
    (recognize_one { emptyModule with frame_count := 2 } absDist (1, 2, 3, 4) 0).confidence
      = 0 := by
  have h := C7_empty_gallery_unknown { emptyModule with frame_count := 1 } absDist
    demoFrame rfl
  have hm : recognize_one { emptyModule with frame_count := 2 } absDist (1, 2, 3, 4) 0 ∈
      (recognize_faces { emptyModule with frame_count := 1 } absDist demoFrame).2 := by
    simp [recognize_faces, demoFrame, emptyModule, demoModule]
  exact h _ hm

/-- Concrete instantiation of C8: loading the demo records (two with
encodings, one without) yields exactly the two encoded triples in input
order, and loading twice is idempotent. -/
theorem C8_load_replaces_and_idempotent_witness :
    (load_known_faces emptyModule demoStudents).known_face_encodings = [0.4, 0.55] ∧
    (load_known_faces emptyModule demoStudents).known_face_names = ["Alice", "Bob"] ∧
    (load_known_faces emptyModule demoStudents).known_face_ids = ["S1", "S2"] ∧
    load_known_faces (load_known_faces emptyModule demoStudents) demoStudents =
      load_known_faces emptyModule demoStudents := by
  have h := C8_load_replaces_and_idempotent emptyModule demoStudents absDist
  refine ⟨?_, ?_, ?_, h.2.2.2.1⟩
  · rw [h.1]
    rfl
  · rw [h.2.1]
    rfl
  · rw [h.2.2.1]
    rfl

/-- Concrete instantiation of C10: the matched result of the processed
demo frame satisfies the field-coherence invariant. -/
theorem C10_result_field_coherence_witness :
    ((recognize_one { demoModule with frame_count := 2 } absDist (1, 2, 3, 4) 0).is_known
        = true ↔
      (recognize_one { demoModule with frame_count := 2 } absDist (1, 2, 3, 4) 0).student_id.isSome
        = true) ∧
    ((recognize_one { demoModule with frame_count := 2 } absDist (1, 2, 3, 4) 0).student_id
        = none →
      (recognize_one { demoModule with frame_count := 2 } absDist (1, 2, 3, 4) 0).name
        = "Unknown" ∧
      (recognize_one { demoModule with frame_count := 2 } absDist (1, 2, 3, 4) 0).confidence
        = 0) := by
  have h := C10_result_field_coherence { demoModule with frame_count := 1 } absDist demoFrame
  have hm : recognize_one { demoModule with frame_count := 2 } absDist (1, 2, 3, 4) 0 ∈
      (recognize_faces { demoModule with frame_count := 1 } absDist demoFrame).2 := by
    simp [recognize_faces, demoFrame, emptyModule, demoModule]
  exact h _ hm
